import Mathlib

/-!
Shallow embedding of the interpreter core of the `pseudocie` repository:
`src/cie_runtime/environment.py` (scoped typed variable store) and
`src/cie_runtime/evaluator.py` (tree-walking evaluator over Lark parse
trees).

Modelling conventions:
* Python runtime values flowing through the interpreter are `int`, `float`,
  `bool`, `str` and `None`; they are embedded as the inductive `Value`.
  Python floats are IEEE doubles; they are embedded as exact rationals
  (every concrete value appearing in the claims, such as `3.5`, is exactly
  representable as a double, so the embedding agrees with the code there).
* Python exceptions raised by the interpreter core (`NameError`,
  `TypeError`, `ValueError`, `ZeroDivisionError`, `AttributeError`) are
  embedded as the `Err` type; fallible operations return `Except Err _`.
  Error payloads keep the identifier / type information of the Python
  message, not its exact English wording.
* `dict` stores are embedded as association lists in insertion order;
  lookup takes the first matching key and update replaces it in place,
  which coincides with Python `dict` behaviour (a `dict` never holds a
  duplicate key, and all stores built by the embedded operations keep
  keys unique).
* Python in-place mutation of an entry found anywhere in the scope chain
  (`Environment.set`) is embedded by rebuilding the owning scope.
-/

/-- A Python runtime value as used by the interpreter:
`int`, `float`, `bool`, `str`, or `None` (`VNone` doubles as the
"unset" marker stored by `var_decl` for a variable with no value yet). -/
inductive Value where
  | VInt : Int → Value
  | VFloat : ℚ → Value
  | VBool : Bool → Value
  | VStr : String → Value
  | VNone : Value
deriving DecidableEq

/-- The Python exception kinds raised by `environment.py` / `evaluator.py`.
The `String` payload records the identifier or message subject. -/
inductive Err where
  | nameError : String → Err
  | typeError : String → Err
  | valueError : String → Err
  | attributeError : String → Err
  | zeroDivisionError : Err
deriving DecidableEq

/-- One entry of `Environment._store`:
`{"type": TYPE_NAME or 'const', "value": object}` (environment.py line 21). -/
structure Entry where
  type : String
  value : Value
deriving DecidableEq

/-- The Python classes used by `Environment._TYPE_MAP` as isinstance
targets: `int`, `float`, `str`, `bool`, `object`. -/
inductive PyType where
  | pyInt | pyFloat | pyStr | pyBool | pyObject
deriving DecidableEq

/-- Python `isinstance(value, t)` on interpreter values.
Note `bool` is a subclass of `int` in Python, so a boolean is an
instance of `int`; nothing except `object` matches `None`. -/
def PyType.isinst : PyType → Value → Bool
  | .pyInt, .VInt _ => true
  | .pyInt, .VBool _ => true
  | .pyFloat, .VFloat _ => true
  | .pyStr, .VStr _ => true
  | .pyBool, .VBool _ => true
  | .pyObject, _ => true
  | _, _ => false

/-- The scope chain: `Environment(parent=None)` is `root`, an environment
with a parent is `child` (environment.py lines 20-23). -/
inductive Environment where
  | root : List (String × Entry) → Environment
  | child : List (String × Entry) → Environment → Environment
deriving DecidableEq

/-- The `_store` dict of the current scope. -/
def Environment.store : Environment → List (String × Entry)
  | .root s => s
  | .child s _ => s

/-- Replace the `_store` dict of the current scope (used to embed Python
in-place mutation of `self._store`). -/
def Environment.setStore : Environment → List (String × Entry) → Environment
  | .root _, s => .root s
  | .child _ p, s => .child s p

/-- `dict` lookup on a store: first entry with the given key. -/
def storeGet : List (String × Entry) → String → Option Entry
  | [], _ => none
  | (k, e) :: rest, n => if k = n then some e else storeGet rest n

/-- `dict` update on a store: replace the entry at the given key in place. -/
def storeSet : List (String × Entry) → String → Entry → List (String × Entry)
  | [], _, _ => []
  | (k, e) :: rest, n, e2 =>
    if k = n then (k, e2) :: rest else (k, e) :: storeSet rest n e2

/-- `Environment._TYPE_MAP` (environment.py lines 10-18): note that besides
the six declared-type names it also contains the internal marker key
`"const"` mapped to `object`. -/
def Environment.TYPE_MAP : List (String × PyType) :=
  [("INTEGER", .pyInt), ("REAL", .pyFloat), ("STRING", .pyStr),
   ("BOOLEAN", .pyBool), ("CHAR", .pyStr), ("DATE", .pyStr),
   ("const", .pyObject)]

/-- `cls._TYPE_MAP.get(type_name)`. -/
def Environment.typeMapGet (ty : String) : Option PyType :=
  (Environment.TYPE_MAP.find? (fun kv => kv.1 == ty)).map (·.2)

/-- `Environment._assert_valid_type_name` (environment.py lines 84-87):
raises `ValueError` iff the name is not a key of `_TYPE_MAP`
(membership `type_name not in cls._TYPE_MAP` is keyed on the same dict
as `typeMapGet`). -/
def Environment._assert_valid_type_name (ty : String) : Except Err Unit :=
  match Environment.typeMapGet ty with
  | some _ => .ok ()
  | none => .error (.valueError ty)

/-- `Environment._value_matches_type` (environment.py lines 89-100). -/
def Environment._value_matches_type (v : Value) (ty : String) : Bool :=
  if ty = "const" then true
  else
    match Environment.typeMapGet ty with
    | none => true
    | some pyTy =>
      if ty = "CHAR" then
        match v with
        | .VStr s => s.length == 1
        | _ => false
      else if ty = "REAL" then
        PyType.isinst .pyInt v || PyType.isinst .pyFloat v
      else
        PyType.isinst pyTy v

/-- `Environment._lookup_entry` (environment.py lines 77-82): search the
current store, then the parent chain; `NameError` at the root. -/
def Environment._lookup_entry : Environment → String → Except Err Entry
  | .root s, n =>
    match storeGet s n with
    | some e => .ok e
    | none => .error (.nameError n)
  | .child s p, n =>
    match storeGet s n with
    | some e => .ok e
    | none => p._lookup_entry n

/-- `Environment.get` (environment.py lines 49-51): return the entry value
(which is `None` for a declared-but-unassigned variable; no
uninitialized-variable error exists). -/
def Environment.get (env : Environment) (n : String) : Except Err Value :=
  (env._lookup_entry n).map Entry.value

/-- `Environment.get_type` (environment.py lines 53-55). -/
def Environment.get_type (env : Environment) (n : String) : Except Err String :=
  (env._lookup_entry n).map Entry.type

/-- `Environment.__contains__` (environment.py lines 114-119): true iff
`_lookup_entry` does not raise. -/
def Environment.contains (env : Environment) (n : String) : Bool :=
  match env._lookup_entry n with
  | .ok _ => true
  | .error _ => false

/-- `Environment.var_decl` (environment.py lines 29-37): duplicate check in
the current scope only, then type-name check, then (only when an initial
value is supplied, i.e. is not `None`) the shape check, then insertion
with the given value (`None` when absent). -/
def Environment.var_decl (env : Environment) (name ty : String) (value : Value) :
    Except Err Environment :=
  if (storeGet env.store name).isSome then
    .error (.nameError name)
  else
    match Environment._assert_valid_type_name ty with
    | .error e => .error e
    | .ok _ =>
      if value ≠ .VNone ∧ Environment._value_matches_type value ty = false then
        .error (.typeError name)
      else
        .ok (env.setStore (env.store ++ [(name, ⟨ty, value⟩)]))

/-- `Environment.const_decl` (environment.py lines 39-43): duplicate check,
then insertion with the special type marker `"const"`. -/
def Environment.const_decl (env : Environment) (name : String) (value : Value) :
    Except Err Environment :=
  if (storeGet env.store name).isSome then
    .error (.nameError name)
  else
    .ok (env.setStore (env.store ++ [(name, ⟨"const", value⟩)]))

/-- `Environment.set` (environment.py lines 61-71): resolve the entry as
`_lookup_entry` does, raise `TypeError` for a constant, raise `TypeError`
on a shape mismatch, otherwise overwrite the entry value in the scope
that owns it (Python mutates the found entry in place; here the owning
scope is rebuilt). -/
def Environment.set : Environment → String → Value → Except Err Environment
  | .root s, n, v =>
    match storeGet s n with
    | some e =>
      if e.type = "const" then
        .error (.typeError ("Cannot assign to constant " ++ n))
      else if Environment._value_matches_type v e.type = false then
        .error (.typeError ("Type mismatch for " ++ n))
      else
        .ok (.root (storeSet s n ⟨e.type, v⟩))
    | none => .error (.nameError n)
  | .child s p, n, v =>
    match storeGet s n with
    | some e =>
      if e.type = "const" then
        .error (.typeError ("Cannot assign to constant " ++ n))
      else if Environment._value_matches_type v e.type = false then
        .error (.typeError ("Type mismatch for " ++ n))
      else
        .ok (.child (storeSet s n ⟨e.type, v⟩) p)
    | none => (p.set n v).map (fun p2 => .child s p2)

/-!
## The evaluator (`src/cie_runtime/evaluator.py`)

The `Evaluator` is a `lark.Transformer`: children of a rule node are
already transformed (bottom-up) when a rule handler runs, so each handler
receives plain Python values (`IDENT` tokens have become their `str` text,
literals their `int` / `float` / `bool` / `str` values).

A crucial source fact: the statement handlers call `self.env.declare_var`,
`self.env.define_const` and `self.env.set_var`, but the `Environment`
class defines no attributes with those names (its methods are `var_decl`,
`const_decl`, `get`, `get_type`, `set` and private helpers).  In Python,
such an attribute access raises `AttributeError` at the call site, so
those statements abort before touching the store.  Attribute lookup is
embedded explicitly below via the list of attribute names the class and
its instances actually define.
-/

/-- The attribute names defined on an `Environment` instance in
environment.py: the two instance attributes set by `__init__`, the class
attribute `_TYPE_MAP`, and the methods of the class body. -/
def Environment.pyHasAttr (m : String) : Bool :=
  m ∈ ["_store", "parent", "_TYPE_MAP", "__init__",
       "var_decl", "const_decl", "get", "get_type", "set",
       "_lookup_entry", "_assert_valid_type_name", "_value_matches_type",
       "_infer_type_name", "__contains__", "__repr__"]

/-- The observable state threaded through an `Evaluator` run: its
`Environment`, the lines still pending at the input collaborator
(`input_fn`), and the lines already written through the output
collaborator (`output_fn`), each line being the list of values passed to
one `self._output(*resolved)` call. -/
structure EvalState where
  env : Environment
  inputs : List String
  outputs : List (List Value)

/-- Python `str.upper()` (the identifiers and literals of this language
are ASCII, where mapping `Char.toUpper` over the characters agrees with
Python). -/
def pyUpper (s : String) : String := ⟨s.data.map Char.toUpper⟩

/-- `Evaluator.get_value` (evaluator.py lines 234-251): a string operand
whose upper-cased form is `TRUE` / `FALSE` becomes the corresponding
boolean *before* any variable lookup is attempted; otherwise, if the
upper-cased name is contained in the environment, the *original*
spelling is fetched with `env.get` (which can raise `NameError`, since
`__contains__` was tested on the upper-cased name but `get` uses the
raw one); otherwise the string itself is returned.  Non-string operands
pass through unchanged. -/
def Evaluator.get_value (env : Environment) (x : Value) : Except Err Value :=
  match x with
  | .VStr s =>
    if pyUpper s = "TRUE" then .ok (.VBool true)
    else if pyUpper s = "FALSE" then .ok (.VBool false)
    else if Environment.contains env (pyUpper s) then Environment.get env s
    else .ok (.VStr s)
  | v => .ok v

/-- Python truthiness (`bool(x)`) on interpreter values. -/
def pyTruthy : Value → Bool
  | .VInt n => n != 0
  | .VFloat q => q != 0
  | .VBool b => b
  | .VStr s => s.length != 0
  | .VNone => false

/-- `Evaluator.or_op` (evaluator.py lines 119-125): resolve both operands
(the tuple assignment evaluates `get_value` on both sides first, so a
lookup failure in the right operand propagates regardless of the left
value), then Python `a or b`, which returns `a` when `a` is truthy and
`b` otherwise - an operand, not necessarily a boolean. -/
def Evaluator.or_op (env : Environment) (a b : Value) : Except Err Value := do
  let va ← Evaluator.get_value env a
  let vb ← Evaluator.get_value env b
  pure (if pyTruthy va then va else vb)

/-- `Evaluator.and_op` (evaluator.py lines 127-129): both operands
resolved, then Python `a and b` (returns `a` when `a` is falsy, else `b`). -/
def Evaluator.and_op (env : Environment) (a b : Value) : Except Err Value := do
  let va ← Evaluator.get_value env a
  let vb ← Evaluator.get_value env b
  pure (if pyTruthy va then vb else va)

/-- A numeric operand as Python coerces it for arithmetic: `int` and
`bool` (`True` is `1`, `False` is `0`) and `float` all take part;
anything else is not a number. -/
def pyAsRat : Value → Option ℚ
  | .VInt n => some (n : ℚ)
  | .VFloat q => some q
  | .VBool b => some (if b then 1 else 0)
  | _ => none

/-- An int-like operand (`int` or its subclass `bool`): this is the case
in which Python `//` and `%` produce an `int`. -/
def pyAsInt : Value → Option Int
  | .VInt n => some n
  | .VBool b => some (if b then 1 else 0)
  | _ => none

/-- Python `/`: true division; the result is a float even for two whole
operands, `ZeroDivisionError` on a zero divisor, `TypeError` on
non-numeric operands (the pseudocode operators are numeric; string
formatting `%` and sequence `+`/`*` never reach these three handlers). -/
def pyTrueDiv (a b : Value) : Except Err Value :=
  match pyAsRat a, pyAsRat b with
  | some qa, some qb =>
    if qb = 0 then .error .zeroDivisionError else .ok (.VFloat (qa / qb))
  | _, _ => .error (.typeError "unsupported operand for /")

/-- Python `//`: floor division; `int // int` is an `int` (floored),
float cases floor to a whole-valued float. -/
def pyFloorDiv (a b : Value) : Except Err Value :=
  match pyAsInt a, pyAsInt b with
  | some x, some y =>
    if y = 0 then .error .zeroDivisionError else .ok (.VInt (Int.fdiv x y))
  | _, _ =>
    match pyAsRat a, pyAsRat b with
    | some qa, some qb =>
      if qb = 0 then .error .zeroDivisionError
      else .ok (.VFloat ((⌊qa / qb⌋ : ℤ) : ℚ))
    | _, _ => .error (.typeError "unsupported operand for //")

/-- Python `%`: remainder with the sign of the divisor
(`a - b * (a // b)` with floor division). -/
def pyMod (a b : Value) : Except Err Value :=
  match pyAsInt a, pyAsInt b with
  | some x, some y =>
    if y = 0 then .error .zeroDivisionError else .ok (.VInt (Int.fmod x y))
  | _, _ =>
    match pyAsRat a, pyAsRat b with
    | some qa, some qb =>
      if qb = 0 then .error .zeroDivisionError
      else .ok (.VFloat (qa - qb * ((⌊qa / qb⌋ : ℤ) : ℚ)))
    | _, _ => .error (.typeError "unsupported operand for %")

/-- `Evaluator.div` (evaluator.py lines 190-192): `left / right` after
resolving both operands through `get_value`. -/
def Evaluator.div (env : Environment) (a b : Value) : Except Err Value := do
  let va ← Evaluator.get_value env a
  let vb ← Evaluator.get_value env b
  pyTrueDiv va vb

/-- `Evaluator.int_div` (evaluator.py lines 194-196): `left // right`. -/
def Evaluator.int_div (env : Environment) (a b : Value) : Except Err Value := do
  let va ← Evaluator.get_value env a
  let vb ← Evaluator.get_value env b
  pyFloorDiv va vb

/-- `Evaluator.mod` (evaluator.py lines 198-200): `left % right`. -/
def Evaluator.mod (env : Environment) (a b : Value) : Except Err Value := do
  let va ← Evaluator.get_value env a
  let vb ← Evaluator.get_value env b
  pyMod va vb

/-- `Evaluator.var_decl` (evaluator.py lines 84-86): the handler body is
`self.env.declare_var(ident, str(type_tok))`.  The attribute lookup of
`declare_var` happens before any call: `Environment` defines no such
attribute (its declaration method is named `var_decl`), so Python raises
`AttributeError` here and no binding is ever created.  The `.ok` branch
is unreachable (`Environment.pyHasAttr "declare_var" = false`). -/
def Evaluator.var_decl (s : EvalState) (ident ty : String) : Except Err EvalState :=
  let _call := (ident, ty)
  if Environment.pyHasAttr "declare_var" then .ok s
  else .error (.attributeError "declare_var")

/-- `Evaluator.const_decl` (evaluator.py lines 88-90): the handler body is
`self.env.define_const(ident, value)`; `Environment` defines
`const_decl`, not `define_const`, so this raises `AttributeError`. -/
def Evaluator.const_decl (s : EvalState) (ident : String) (value : Value) :
    Except Err EvalState :=
  let _call := (ident, value)
  if Environment.pyHasAttr "define_const" then .ok s
  else .error (.attributeError "define_const")

/-- `Evaluator.assign` (evaluator.py lines 92-95): first
`resolved_value = self.get_value(value)` (which can raise `NameError`),
then `self.env.set_var(ident, resolved_value)`; `Environment` defines
`set`, not `set_var`, so the second step raises `AttributeError` and no
store is mutated. -/
def Evaluator.assign (s : EvalState) (ident : String) (value : Value) :
    Except Err EvalState := do
  let _resolved_value ← Evaluator.get_value s.env value
  let _call := ident
  if Environment.pyHasAttr "set_var" then .ok s
  else .error (.attributeError "set_var")

/-- `Evaluator.input` (evaluator.py lines 101-105): read one raw line from
the input collaborator (prompt `INPUT <ident>: `); the source comment
states `No automatic type coercion yet - stored as plain string`, and no
parsing of the line against the declared type exists.  The store call is
`self.env.set_var(ident, user_value)`: `Environment` has no `set_var`,
so `AttributeError` is raised after the line has been consumed, and
nothing is written to the environment or the output collaborator. -/
def Evaluator.input (s : EvalState) (ident : String) : Except Err EvalState :=
  let _prompt := "INPUT " ++ ident ++ ": "
  let _user_value := s.inputs.headD ""
  let s2 : EvalState := ⟨s.env, s.inputs.tail, s.outputs⟩
  if Environment.pyHasAttr "set_var" then .ok s2
  else .error (.attributeError "set_var")

/-- `Evaluator.output` (evaluator.py lines 110-113): resolve the items of
the output list left to right through `_resolve` (an alias of
`get_value`), then hand them as one line to the output collaborator. -/
def Evaluator.output (s : EvalState) (vals : List Value) : Except Err EvalState := do
  let resolved ← vals.mapM (Evaluator.get_value s.env)
  .ok ⟨s.env, s.inputs, s.outputs ++ [resolved]⟩

/-- The state at the start of a run: `run(tree)` builds
`Evaluator(env=None)`, i.e. a fresh root `Environment`, with no input
consumed and no output written. -/
def startState : EvalState := ⟨.root [], [], []⟩

/-- Example scenario 1 of the specification, as the sequence of transformed
statements the Lark tree hands to the `Evaluator`:
`DECLARE X : INTEGER` then `X <- 5` then `OUTPUT X`
(the assignment child is already the literal `5`; the output child is the
identifier text `"X"`). -/
def scenario1 : Except Err EvalState := do
  let s1 ← Evaluator.var_decl startState "X" "INTEGER"
  let s2 ← Evaluator.assign s1 "X" (.VInt 5)
  Evaluator.output s2 [.VStr "X"]

/-- Example scenario 4 of the specification: a variable declared `BOOLEAN`
(entered directly into the store, since the broken declaration handler is
not the subject of claim C4), with the raw line `maybe` pending at the
input collaborator. -/
def scenario4State : EvalState :=
  ⟨.root [("FLAG", ⟨"BOOLEAN", .VNone⟩)], ["maybe"], []⟩

/-- Shape class "whole-number value, or truth value": what Python
`isinstance(v, int)` accepts, since `bool` is a subclass of `int`. -/
def isWholeOrTruth : Value → Bool
  | .VInt _ => true
  | .VBool _ => true
  | _ => false

/-- Shape class "numeric value, or truth value": what
`isinstance(v, (int, float))` accepts. -/
def isNumericOrTruth : Value → Bool
  | .VInt _ => true
  | .VFloat _ => true
  | .VBool _ => true
  | _ => false

/-- Shape class "text value". -/
def isText : Value → Bool
  | .VStr _ => true
  | _ => false

/-- Shape class "truth value". -/
def isTruth : Value → Bool
  | .VBool _ => true
  | _ => false

/-- Shape class "single-character text value". -/
def isSingleChar : Value → Bool
  | .VStr s => s.length == 1
  | _ => false

/-- Discriminator for claim C6: is an evaluation result an `ok` carrying a
boolean value? -/
def resultIsBool : Except Err Value → Bool
  | .ok (.VBool _) => true
  | _ => false

/-!
## Helper lemmas about stores and the scope chain
-/

theorem storeGet_append_fresh (s : List (String × Entry)) (n : String) (e : Entry)
    (h : storeGet s n = none) : storeGet (s ++ [(n, e)]) n = some e := by
  induction s with
  | nil => simp [storeGet]
  | cons kv rest ih =>
    obtain ⟨k, e0⟩ := kv
    by_cases hk : k = n
    · simp [storeGet, hk] at h
    · simp only [storeGet, hk, if_false, List.cons_append, if_neg hk] at h ⊢
      exact ih h

theorem storeGet_storeSet_self (s : List (String × Entry)) (n : String) (e e2 : Entry)
    (h : storeGet s n = some e) : storeGet (storeSet s n e2) n = some e2 := by
  induction s with
  | nil => simp [storeGet] at h
  | cons kv rest ih =>
    obtain ⟨k, e0⟩ := kv
    by_cases hk : k = n
    · simp [storeGet, storeSet, hk]
    · simp only [storeGet, storeSet, if_neg hk] at h ⊢
      exact ih h

/-- `_lookup_entry` either resolves, or raises exactly
`NameError` for the looked-up name. -/
theorem lookup_ok_or_nameError (env : Environment) (n : String) :
    (∃ e, env._lookup_entry n = .ok e) ∨
      env._lookup_entry n = .error (.nameError n) := by
  induction env with
  | root s =>
    cases h : storeGet s n with
    | some e => exact Or.inl ⟨e, by simp [Environment._lookup_entry, h]⟩
    | none => exact Or.inr (by simp [Environment._lookup_entry, h])
  | child s p ih =>
    cases h : storeGet s n with
    | some e => exact Or.inl ⟨e, by simp [Environment._lookup_entry, h]⟩
    | none => simpa [Environment._lookup_entry, h] using ih

theorem lookup_of_contains_false (env : Environment) (n : String)
    (h : Environment.contains env n = false) :
    env._lookup_entry n = .error (.nameError n) := by
  rcases lookup_ok_or_nameError env n with ⟨e, he⟩ | he
  · simp [Environment.contains, he] at h
  · exact he

/-- Behaviour of `Environment.set` on a name that `_lookup_entry`
resolves: constant rejection, shape-mismatch rejection, and the
store-then-read-back round trip. -/
theorem set_of_lookup (env : Environment) (n : String) (v : Value) (e : Entry) :
    env._lookup_entry n = .ok e →
    (e.type = "const" →
       env.set n v = .error (.typeError ("Cannot assign to constant " ++ n))) ∧
    (e.type ≠ "const" → Environment._value_matches_type v e.type = false →
       env.set n v = .error (.typeError ("Type mismatch for " ++ n))) ∧
    (e.type ≠ "const" → Environment._value_matches_type v e.type = true →
       ∃ env2, env.set n v = .ok env2 ∧ env2.get n = .ok v) := by
  induction env with
  | root s =>
    intro h
    cases hg : storeGet s n with
    | none => simp [Environment._lookup_entry, hg] at h
    | some e' =>
      have he : e' = e := by simpa [Environment._lookup_entry, hg] using h
      subst he
      refine ⟨?_, ?_, ?_⟩
      · intro hc; simp [Environment.set, hg, hc]
      · intro hc hm; simp [Environment.set, hg, hc, hm]
      · intro hc hm
        refine ⟨.root (storeSet s n ⟨e'.type, v⟩), ?_, ?_⟩
        · simp [Environment.set, hg, hc, hm]
        · simp [Environment.get, Environment._lookup_entry, Except.map,
                storeGet_storeSet_self s n e' ⟨e'.type, v⟩ hg]
  | child s p ih =>
    intro h
    cases hg : storeGet s n with
    | some e' =>
      have he : e' = e := by simpa [Environment._lookup_entry, hg] using h
      subst he
      refine ⟨?_, ?_, ?_⟩
      · intro hc; simp [Environment.set, hg, hc]
      · intro hc hm; simp [Environment.set, hg, hc, hm]
      · intro hc hm
        refine ⟨.child (storeSet s n ⟨e'.type, v⟩) p, ?_, ?_⟩
        · simp [Environment.set, hg, hc, hm]
        · simp [Environment.get, Environment._lookup_entry, Except.map,
                storeGet_storeSet_self s n e' ⟨e'.type, v⟩ hg]
    | none =>
      have hp : p._lookup_entry n = .ok e := by
        simpa [Environment._lookup_entry, hg] using h
      obtain ⟨ih1, ih2, ih3⟩ := ih hp
      refine ⟨?_, ?_, ?_⟩
      · intro hc; simp [Environment.set, hg, ih1 hc, Except.map]
      · intro hc hm; simp [Environment.set, hg, ih2 hc hm, Except.map]
      · intro hc hm
        obtain ⟨p2, hset, hget⟩ := ih3 hc hm
        refine ⟨.child s p2, ?_, ?_⟩
        · simp [Environment.set, hg, hset, Except.map]
        · simp only [Environment.get, Environment._lookup_entry, hg]
          simpa [Environment.get] using hget


/-- The seven keys of `_TYPE_MAP`: `typeMapGet` misses exactly outside
this list. -/
theorem typeMapGet_eq_none_iff (ty : String) :
    Environment.typeMapGet ty = none ↔
      ty ∉ ["INTEGER", "REAL", "STRING", "BOOLEAN", "CHAR", "DATE", "const"] := by
  simp only [Environment.typeMapGet, Environment.TYPE_MAP, Option.map_eq_none',
    List.find?_eq_none, List.mem_cons, List.not_mem_nil, or_false, beq_iff_eq]
  constructor
  · intro h hmem
    rcases hmem with h1 | h1 | h1 | h1 | h1 | h1 | h1 <;>
      subst h1 <;> simp at h
  · intro h x hx
    rcases hx with h1 | h1 | h1 | h1 | h1 | h1 | h1 <;> subst h1 <;>
      intro he <;> exact h (by subst he; simp)

/-!
## Claim theorems
-/

/-- C1. The specification claims that running the scenario-1 program
(declare `X: INTEGER`, assign `X <- 5`, output `X`) produces the single
output line `5` and an `Environment` holding `X` bound to `5`.  The code
does not: the very first statement handler executes
`self.env.declare_var(...)`, and `Environment` defines no attribute
`declare_var` (its method is `var_decl`), so the run aborts with
`AttributeError` (surfaced through Lark as a wrapped visit error) before
any binding is created or any output is written. -/
theorem c1_scenario1_raises_attribute_error :
    scenario1 = .error (.attributeError "declare_var") := rfl

/-- C4. The specification claims the Input statement parses the raw line
according to the target variable's declared type and, on failure, reports
through the output collaborator and skips the assignment, continuing
execution.  The code does neither: `Evaluator.input` performs no
type-directed parsing at all (source comment: `No automatic type coercion
yet - stored as plain string`) and its store call `self.env.set_var(...)`
names a method `Environment` does not define, so after consuming the raw
line `maybe` for the `BOOLEAN` variable `FLAG` it raises `AttributeError`:
nothing is reported, nothing is assigned, and execution aborts instead of
continuing. -/
theorem c4_input_raises_attribute_error :
    Evaluator.input scenario4State "FLAG" = .error (.attributeError "set_var") := rfl

/-- C2 counterexample. The claim says every Environment operation sees a
canonically normalized key, so a name declared as `COUNT` can be looked
up or assigned as `count`.  In the code the store key is the verbatim
spelling: `get_value` passes its membership pre-check (which uppercases)
but then fetches the raw spelling, raising `NameError`; `Environment.set`
with the lower-case spelling raises `NameError` as well. -/
theorem c2_counterexample :
    Evaluator.get_value (.root [("COUNT", ⟨"INTEGER", .VInt 5⟩)]) (.VStr "count") =
      .error (.nameError "count") ∧
    Environment.set (.root [("COUNT", ⟨"INTEGER", .VInt 5⟩)]) "count" (.VInt 6) =
      .error (.nameError "count") := ⟨rfl, rfl⟩

/-- C2 (amended). Identifiers are not normalized: the Environment compares
names case-sensitively, and the evaluator's `get_value` checks membership
of the upper-cased name but fetches the original spelling, so any
identifier whose upper-cased spelling is declared while its exact
spelling is not (and which is not a TRUE/FALSE literal) fails with
`NameError` instead of resolving to the binding. -/
theorem c2_lookup_is_case_sensitive (env : Environment) (s : String)
    (h1 : Environment.contains env s = false)
    (h2 : Environment.contains env (pyUpper s) = true)
    (h3 : pyUpper s ≠ "TRUE") (h4 : pyUpper s ≠ "FALSE") :
    Evaluator.get_value env (.VStr s) = .error (.nameError s) := by
  have hl := lookup_of_contains_false env s h1
  simp [Evaluator.get_value, h3, h4, h2, Environment.get, hl, Except.map]

theorem c2_witness :
    Evaluator.get_value (.root [("X", ⟨"INTEGER", .VInt 5⟩)]) (.VStr "x") =
      .error (.nameError "x") :=
  c2_lookup_is_case_sensitive (.root [("X", ⟨"INTEGER", .VInt 5⟩)]) "x"
    rfl rfl (by decide) (by decide)

/-- C9. In `get_value`, a string operand whose upper-cased form is exactly
`TRUE` or `FALSE` becomes the corresponding boolean before the
environment is consulted: for every environment (even one binding the
name `TRUE` to another value) and every spelling with that upper-cased
form, the result is the boolean, never a stored binding's value and never
the text itself. -/
theorem c9_bool_literal_beats_lookup (env : Environment) (s : String) :
    (pyUpper s = "TRUE" → Evaluator.get_value env (.VStr s) = .ok (.VBool true)) ∧
    (pyUpper s = "FALSE" → Evaluator.get_value env (.VStr s) = .ok (.VBool false)) := by
  constructor
  · intro h
    simp [Evaluator.get_value, h]
  · intro h
    have h3 : pyUpper s ≠ "TRUE" := by rw [h]; decide
    simp [Evaluator.get_value, h, h3]

theorem c9_witness :
    Evaluator.get_value (.root [("TRUE", ⟨"INTEGER", .VInt 7⟩)]) (.VStr "tRuE") =
      .ok (.VBool true) ∧
    Evaluator.get_value (.root [("TRUE", ⟨"INTEGER", .VInt 7⟩)]) (.VStr "False") =
      .ok (.VBool false) :=
  ⟨(c9_bool_literal_beats_lookup (.root [("TRUE", ⟨"INTEGER", .VInt 7⟩)]) "tRuE").1 rfl,
   (c9_bool_literal_beats_lookup (.root [("TRUE", ⟨"INTEGER", .VInt 7⟩)]) "False").2 rfl⟩

/-- C10. Declaring a variable (fresh name, known type) with no initial
value stores the unset marker `None`, and a subsequent `Environment.get`
returns that marker `ok`, raising nothing: the store's read operation
models no `UninitializedVariable` failure state. -/
theorem c10_unset_variable_reads_none (env : Environment) (n ty : String)
    (hfresh : storeGet env.store n = none)
    (hty : Environment.typeMapGet ty ≠ none) :
    ∃ env2, env.var_decl n ty .VNone = .ok env2 ∧ env2.get n = .ok .VNone := by
  obtain ⟨p, hp⟩ : ∃ p, Environment.typeMapGet ty = some p := by
    cases hg : Environment.typeMapGet ty with
    | none => exact absurd hg hty
    | some p => exact ⟨p, rfl⟩
  refine ⟨env.setStore (env.store ++ [(n, ⟨ty, .VNone⟩)]), ?_, ?_⟩
  · simp [Environment.var_decl, hfresh, Environment._assert_valid_type_name, hp]
  · have hg := storeGet_append_fresh env.store n ⟨ty, .VNone⟩ hfresh
    cases env with
    | root s =>
      simp only [Environment.store] at hg
      simp [Environment.get, Environment._lookup_entry, Environment.setStore,
        Environment.store, hg, Except.map]
    | child s q =>
      simp only [Environment.store] at hg
      simp [Environment.get, Environment._lookup_entry, Environment.setStore,
        Environment.store, hg, Except.map]

theorem c10_witness :
    ∃ env2, Environment.var_decl (.root []) "Y" "INTEGER" .VNone = .ok env2 ∧
      env2.get "Y" = .ok .VNone :=
  c10_unset_variable_reads_none (.root []) "Y" "INTEGER" rfl (by decide)

/-- C7. For every binding whose entry carries the constant marker
(`const_decl` stores type `"const"`), `Environment.set` raises the
constant-reassignment `TypeError` for every value and in every scope of
the chain, and the stored value still reads back unchanged. -/
theorem c7_constant_reassignment (env : Environment) (n : String) (v : Value)
    (e : Entry) (h : env._lookup_entry n = .ok e) (hc : e.type = "const") :
    env.set n v = .error (.typeError ("Cannot assign to constant " ++ n)) ∧
    env.get n = .ok e.value :=
  ⟨(set_of_lookup env n v e h).1 hc, by simp [Environment.get, h, Except.map]⟩

theorem c7_witness :
    Environment.set (.child [] (.root [("PI", ⟨"const", .VInt 3⟩)])) "PI" (.VInt 4) =
      .error (.typeError ("Cannot assign to constant " ++ "PI")) ∧
    Environment.get (.child [] (.root [("PI", ⟨"const", .VInt 3⟩)])) "PI" =
      .ok (.VInt 3) :=
  c7_constant_reassignment (.child [] (.root [("PI", ⟨"const", .VInt 3⟩)])) "PI"
    (.VInt 4) ⟨"const", .VInt 3⟩ rfl rfl

/-- C3 counterexample. The claim says INTEGER accepts whole-number values
only, everything else raising `TypeMismatch`.  But Python's `bool` is a
subclass of `int`, so `isinstance(True, int)` holds and assigning the
truth value `True` to the INTEGER variable `N` succeeds (and is read
back as the truth value, not a whole number). -/
theorem c3_counterexample :
    Environment.set (.root [("N", ⟨"INTEGER", .VNone⟩)]) "N" (.VBool true) =
      .ok (.root [("N", ⟨"INTEGER", .VBool true⟩)]) := rfl

/-- C3 (amended). The shape rule actually enforced by `assign`
(`Environment.set` via `_value_matches_type`): INTEGER accepts
whole-number values and also the two truth values (host booleans are
integers); REAL accepts any numeric value, truth values included; STRING
accepts text; BOOLEAN accepts only the two truth values; CHAR accepts
exactly single-character text; DATE accepts any text.  A non-matching
value raises `TypeMismatch`, and a matching value makes a subsequent
lookup return exactly that value. -/
theorem c3_shape_rule (env : Environment) (n : String) (v : Value) (e : Entry)
    (h : env._lookup_entry n = .ok e) (hc : e.type ≠ "const") :
    (Environment._value_matches_type v "INTEGER" = isWholeOrTruth v ∧
     Environment._value_matches_type v "REAL" = isNumericOrTruth v ∧
     Environment._value_matches_type v "STRING" = isText v ∧
     Environment._value_matches_type v "BOOLEAN" = isTruth v ∧
     Environment._value_matches_type v "CHAR" = isSingleChar v ∧
     Environment._value_matches_type v "DATE" = isText v) ∧
    (Environment._value_matches_type v e.type = false →
       env.set n v = .error (.typeError ("Type mismatch for " ++ n))) ∧
    (Environment._value_matches_type v e.type = true →
       ∃ env2, env.set n v = .ok env2 ∧ env2.get n = .ok v) := by
  refine ⟨⟨?_, ?_, ?_, ?_, ?_, ?_⟩, ?_, ?_⟩
  · cases v <;> rfl
  · cases v <;> rfl
  · cases v <;> rfl
  · cases v <;> rfl
  · cases v <;> rfl
  · cases v <;> rfl
  · exact (set_of_lookup env n v e h).2.1 hc
  · exact (set_of_lookup env n v e h).2.2 hc

theorem c3_witness :
    ∃ env2, Environment.set (.root [("S", ⟨"STRING", .VNone⟩)]) "S" (.VStr "hi") =
      .ok env2 ∧ env2.get "S" = .ok (.VStr "hi") :=
  (c3_shape_rule (.root [("S", ⟨"STRING", .VNone⟩)]) "S" (.VStr "hi")
    ⟨"STRING", .VNone⟩ rfl (by decide)).2.2 rfl

/-- C5 counterexample. The claim says `declareVariable` fails with
`UnknownType` exactly when the type name is outside the six-member
enumeration; but `_TYPE_MAP` also contains the internal marker key
`"const"`, so declaring a variable with type name `const` succeeds. -/
theorem c5_counterexample :
    Environment.var_decl (.root []) "c" "const" .VNone =
      .ok (.root [("c", ⟨"const", .VNone⟩)]) := rfl

/-- C5 (amended). `var_decl` checks the type name against the keys of
`_TYPE_MAP`, which are the six public type names plus the internal marker
`"const"`: the `UnknownType` failure (`ValueError`) occurs exactly when
the type name is outside those seven; for a fresh name and a type among
them it succeeds, appending a binding whose value is the unset marker. -/
theorem c5_unknown_type_rule (ty : String) (env : Environment) (n : String) :
    ((∃ m, Environment._assert_valid_type_name ty = .error (.valueError m)) ↔
       ty ∉ ["INTEGER", "REAL", "STRING", "BOOLEAN", "CHAR", "DATE", "const"]) ∧
    (storeGet env.store n = none →
       ty ∈ ["INTEGER", "REAL", "STRING", "BOOLEAN", "CHAR", "DATE", "const"] →
       env.var_decl n ty .VNone =
         .ok (env.setStore (env.store ++ [(n, ⟨ty, .VNone⟩)]))) := by
  constructor
  · rw [← typeMapGet_eq_none_iff]
    cases hg : Environment.typeMapGet ty with
    | some p =>
      simp [Environment._assert_valid_type_name, hg]
    | none =>
      exact ⟨fun _ => rfl,
        fun _ => ⟨ty, by simp [Environment._assert_valid_type_name, hg]⟩⟩
  · intro hfresh hmem
    have hsome : ∃ p, Environment.typeMapGet ty = some p := by
      cases hg : Environment.typeMapGet ty with
      | none => exact absurd hmem ((typeMapGet_eq_none_iff ty).1 hg)
      | some p => exact ⟨p, rfl⟩
    obtain ⟨p, hp⟩ := hsome
    simp [Environment.var_decl, hfresh, Environment._assert_valid_type_name, hp]

theorem c5_witness :
    Environment.var_decl (.root []) "D" "DATE" .VNone =
      .ok (.root [("D", ⟨"DATE", .VNone⟩)]) :=
  (c5_unknown_type_rule "DATE" (.root []) "D").2 rfl (by decide)

/-- C6 counterexample. The claim says AND/OR return a boolean value.  But
the handlers return Python `a or b` / `a and b`, which select one of the
operands: on the integer operands `1` and `2`, OR returns the integer
`1`, not a boolean. -/
theorem c6_counterexample :
    Evaluator.or_op (.root []) (.VInt 1) (.VInt 2) = .ok (.VInt 1) ∧
    resultIsBool (Evaluator.or_op (.root []) (.VInt 1) (.VInt 2)) = false :=
  ⟨rfl, rfl⟩

/-- C6 (amended). AND and OR always evaluate both operands - a failure
while resolving the right operand propagates even when the left operand
already determines the outcome (no short-circuiting) - and when both
operand values are booleans the result is the boolean disjunction /
conjunction; on non-boolean operands they return one of the operands by
host truthiness selection, which need not be a boolean. -/
theorem c6_and_or_semantics (env : Environment) :
    (∀ a b va err, Evaluator.get_value env a = .ok va →
       Evaluator.get_value env b = .error err →
       Evaluator.or_op env a b = .error err ∧
       Evaluator.and_op env a b = .error err) ∧
    (∀ p q : Bool,
       Evaluator.or_op env (.VBool p) (.VBool q) = .ok (.VBool (p || q)) ∧
       Evaluator.and_op env (.VBool p) (.VBool q) = .ok (.VBool (p && q))) := by
  constructor
  · intro a b va err ha hb
    constructor <;>
      simp [Evaluator.or_op, Evaluator.and_op, ha, hb, bind, Except.bind]
  · intro p q
    cases p <;> cases q <;> exact ⟨rfl, rfl⟩

theorem c6_witness :
    Evaluator.or_op (.root [("B", ⟨"INTEGER", .VNone⟩)]) (.VBool true) (.VStr "b") =
      .error (.nameError "b") ∧
    Evaluator.and_op (.root [("B", ⟨"INTEGER", .VNone⟩)]) (.VBool false) (.VBool true) =
      .ok (.VBool false) :=
  ⟨((c6_and_or_semantics (.root [("B", ⟨"INTEGER", .VNone⟩)])).1 (.VBool true)
      (.VStr "b") (.VBool true) (.nameError "b") rfl rfl).1,
   ((c6_and_or_semantics (.root [("B", ⟨"INTEGER", .VNone⟩)])).2 false true).2⟩

/-- C8. On two integer operands: ordinary division yields the exact
(non-truncated) fractional value as a float - in particular it is never a
whole number when the divisor does not divide the dividend - while
integer-divide and modulo follow the floor-division convention:
`int_div` is `Int.fdiv` (floor), `mod` is `Int.fmod`, which satisfies
`a mod b = a - b * (a fdiv b)` and, for a positive divisor, lies in
`[0, b)` (so `-7 mod 2 = 1`). -/
theorem c8_division_semantics (env : Environment) (a b : ℤ) (hb : b ≠ 0) :
    Evaluator.div env (.VInt a) (.VInt b) = .ok (.VFloat ((a : ℚ) / (b : ℚ))) ∧
    (¬ b ∣ a → ∀ z : ℤ, ((a : ℚ) / (b : ℚ)) ≠ (z : ℚ)) ∧
    Evaluator.int_div env (.VInt a) (.VInt b) = .ok (.VInt (Int.fdiv a b)) ∧
    Evaluator.mod env (.VInt a) (.VInt b) = .ok (.VInt (Int.fmod a b)) ∧
    Int.fmod a b = a - b * Int.fdiv a b ∧
    (0 < b → 0 ≤ Int.fmod a b ∧ Int.fmod a b < b) := by
  have hbq : (b : ℚ) ≠ 0 := by exact_mod_cast hb
  refine ⟨?_, ?_, ?_, ?_, ?_, ?_⟩
  · simp [Evaluator.div, Evaluator.get_value, pyTrueDiv, pyAsRat, hbq, bind,
      Except.bind]
  · intro hnd z hz
    apply hnd
    refine ⟨z, ?_⟩
    rw [div_eq_iff hbq] at hz
    have hq : (a : ℚ) = (b : ℚ) * (z : ℚ) := by rw [hz]; ring
    exact_mod_cast hq
  · simp [Evaluator.int_div, Evaluator.get_value, pyFloorDiv, pyAsInt, hb, bind,
      Except.bind]
  · simp [Evaluator.mod, Evaluator.get_value, pyMod, pyAsInt, hb, bind,
      Except.bind]
  · have h := Int.fdiv_add_fmod a b
    linarith
  · intro hpos
    exact ⟨Int.fmod_nonneg' a hpos, Int.fmod_lt_of_pos a hpos⟩

theorem c8_witness :
    Evaluator.div (.root []) (.VInt 7) (.VInt 2) = .ok (.VFloat (7 / 2 : ℚ)) ∧
    (7 / 2 : ℚ) ≠ ((3 : ℤ) : ℚ) ∧
    Evaluator.int_div (.root []) (.VInt 7) (.VInt 2) = .ok (.VInt 3) ∧
    Evaluator.mod (.root []) (.VInt 7) (.VInt 2) = .ok (.VInt 1) ∧
    Evaluator.mod (.root []) (.VInt (-7)) (.VInt 2) = .ok (.VInt 1) := by
  have h7 := c8_division_semantics (.root []) 7 2 (by decide)
  have hm7 := c8_division_semantics (.root []) (-7) 2 (by decide)
  refine ⟨?_, ?_, ?_, ?_, ?_⟩
  · have h := h7.1
    have e1 : ((7 : ℤ) : ℚ) / ((2 : ℤ) : ℚ) = (7 / 2 : ℚ) := by norm_num
    rw [e1] at h
    exact h
  · have h := h7.2.1 (by decide) 3
    have e1 : ((7 : ℤ) : ℚ) / ((2 : ℤ) : ℚ) = (7 / 2 : ℚ) := by norm_num
    rw [e1] at h
    exact h
  · have h := h7.2.2.1
    have e1 : Int.fdiv 7 2 = 3 := by decide
    rw [e1] at h
    exact h
  · have h := h7.2.2.2.1
    have e1 : Int.fmod 7 2 = 1 := by decide
    rw [e1] at h
    exact h
  · have h := hm7.2.2.2.1
    have e1 : Int.fmod (-7) 2 = 1 := by decide
    rw [e1] at h
    exact h
